import Mathlib

/-!
Shallow embedding of the AlloLLMEval core orchestration layer
(`AlloLLMEval/core/base.py`, `core/metrics.py`, `core/test_runner.py`,
`utils/validation.py`) and proofs about it.

Python values are modelled by the inductive `Value`; dictionaries with
string keys are association lists whose insertion follows Python dict
update semantics (replace in place on an existing key, append otherwise).
Raising an exception is modelled with `Except Err`.  Floats appearing in
the code (`MetricOutput.score`, thresholds) are only stored and compared,
never computed with, so they are modelled by `Rat`.  `datetime.now()`
values are threaded as explicit string parameters.
-/

set_option linter.unusedVariables false

namespace AlloLLMEval

/-- A Python runtime value, as far as the core layer observes it. -/
inductive Value where
  | none : Value
  | bool : Bool → Value
  | int : Int → Value
  | float : Rat → Value
  | str : String → Value
  | list : List Value → Value
  | dict : List (String × Value) → Value

/-- A Python `dict` with string keys, as used for all configs. -/
abbrev Dict := List (String × Value)

/-- First-match lookup, i.e. `d[k]` / `k in d` on a dict whose keys are
unique (Python dicts never hold a key twice). -/
def Dict.lookup : Dict → String → Option Value
  | [], _ => Option.none
  | (k', v) :: rest, k => if k' = k then some v else Dict.lookup rest k

/-- Model of `d[k] = v` on a Python dict: replace the value in place when the key
is present, append the pair otherwise. -/
def Dict.insert : Dict → String → Value → Dict
  | [], k, v => [(k, v)]
  | (k', v') :: rest, k, v =>
      if k' = k then (k, v) :: rest else (k', v') :: Dict.insert rest k v

/-- The Python expression `\x7b**a, **b\x7d`: start from `a`, then write each
entry of `b` on top in order. -/
def Dict.union (a b : Dict) : Dict :=
  b.foldl (fun acc kv => Dict.insert acc kv.1 kv.2) a

/-- The built-in Python types the core checks with `isinstance`. -/
inductive PyType where
  | dictT | strT | intT | floatT | boolT | listT | noneT
deriving DecidableEq

/-- Model of `isinstance(v, t)` for the types above.  `bool` is a subclass of
`int` in Python, so a `bool` value is an instance of `int` as well. -/
def isinstance : Value → PyType → Bool
  | .dict _, .dictT => true
  | .str _, .strT => true
  | .int _, .intT => true
  | .bool _, .intT => true
  | .bool _, .boolT => true
  | .float _, .floatT => true
  | .list _, .listT => true
  | .none, .noneT => true
  | _, _ => false

/-- Model of `type(v).__name__`. -/
def Value.typeName : Value → String
  | .none => "NoneType"
  | .bool _ => "bool"
  | .int _ => "int"
  | .float _ => "float"
  | .str _ => "str"
  | .list _ => "list"
  | .dict _ => "dict"

/-- Model of `t.__name__` for an expected type in a schema. -/
def PyType.name : PyType → String
  | .dictT => "dict"
  | .strT => "str"
  | .intT => "int"
  | .floatT => "float"
  | .boolT => "bool"
  | .listT => "list"
  | .noneT => "NoneType"

/-- Exceptions the core raises: `ValueError(msg)`, `TypeError(msg)` and
`NotImplementedError`. -/
inductive Err where
  | valueError (msg : String)
  | typeError (msg : String)
  | notImplementedError
deriving DecidableEq

/-- Message of the `ValueError` raised by `validate_config_schema` for
an absent required key. -/
def missingKeyMsg (key : String) : String :=
  "Missing required config key: " ++ key

/-- Message of the `TypeError` raised by `validate_config_schema` for a
key whose value has the wrong type.  (The quotation marks around the key
name in the original message are omitted.) -/
def typeMismatchMsg (key : String) (value_type : PyType) (v : Value) : String :=
  "Config key " ++ key ++ " should be of type " ++ value_type.name
    ++ ", got " ++ v.typeName

/-- Model of `utils/validation.py` `validate_config_schema`: iterate the schema
entries, raising `ValueError` for a key absent from the config and
`TypeError` for a present key whose value is not an instance of the
declared type. -/
def validate_config_schema (config : Dict) : List (String × PyType) → Except Err Unit
  | [] => Except.ok ()
  | (key, value_type) :: rest =>
      match Dict.lookup config key with
      | Option.none => Except.error (.valueError (missingKeyMsg key))
      | some v =>
          if isinstance v value_type then
            validate_config_schema config rest
          else
            Except.error (.typeError (typeMismatchMsg key value_type v))

/-- Model of `core/metrics.py` `MetricStatus`. -/
inductive MetricStatus where
  | PASSED | WARNING | FAILED | INCONCLUSIVE
deriving DecidableEq

/-- Model of `core/metrics.py` `MetricOutput`: a plain dataclass; no constructor
validation is performed on any field. -/
structure MetricOutput where
  score : Rat
  status : MetricStatus
  visualization : Value
  details : Dict
  threshold : List (String × Rat)

/-- Model of `core/base.py` `PromptExecutorBase` instances (of the base class or
any subclass): the stored schema, the dispatched `execute` method and the
class name (`__class__.__name__`). -/
structure PromptExecutorBase where
  config_schema : Value
  execute : Value → Dict → Except Err Value
  className : String

/-- The body of the base class method `PromptExecutorBase.execute`,
which a direct (non-subclassed) instance dispatches to:
`raise NotImplementedError`. -/
def PromptExecutorBase.executeBase (input_data : Value) (config : Dict) :
    Except Err Value :=
  Except.error .notImplementedError

/-- Model of `PromptExecutorBase.__init__`: store the schema, then
`_validate_schema` raises `ValueError` unless it is a `dict`. -/
def PromptExecutorBase.init (config_schema : Value) : Except Err PromptExecutorBase :=
  if isinstance config_schema .dictT then
    Except.ok ⟨config_schema, PromptExecutorBase.executeBase, "PromptExecutorBase"⟩
  else
    Except.error (.valueError "Config schema must be a dictionary")

/-- Model of `core/metrics.py` `MetricEvaluatorBase` instances: the stored config,
the dispatched `evaluate` method (arguments: executor, input_data,
base_output, executor_config, test_config, evaluation_params) and the
class name. -/
structure MetricEvaluatorBase where
  config : Value
  evaluate : PromptExecutorBase → Value → Value → Dict → Dict → Dict →
    Except Err MetricOutput
  className : String

/-- The body of the base class method `MetricEvaluatorBase.evaluate`:
`raise NotImplementedError`. -/
def MetricEvaluatorBase.evaluateBase (executor : PromptExecutorBase)
    (input_data base_output : Value) (executor_config test_config evaluation_params : Dict) :
    Except Err MetricOutput :=
  Except.error .notImplementedError

/-- Model of `MetricEvaluatorBase.__init__`: store the config, then
`_validate_config` raises `ValueError` unless it is a `dict`. -/
def MetricEvaluatorBase.init (config : Value) : Except Err MetricEvaluatorBase :=
  if isinstance config .dictT then
    Except.ok ⟨config, MetricEvaluatorBase.evaluateBase, "MetricEvaluatorBase"⟩
  else
    Except.error (.valueError "Config must be a dictionary")

/-- Model of `core/test_runner.py` `TestConfig`: a dataclass pairing the two
config dicts. -/
structure TestConfig where
  executor_config : Dict
  metric_config : Dict

/-- Model of `core/test_runner.py` `TestResult`. -/
structure TestResult where
  metric_output : MetricOutput
  executor_output : Value
  configs_used : TestConfig
  metadata : Dict
  timestamp : String

/-- An arbitrary Python object handed to `TestRunner.__init__` (Python
performs no static check on the arguments, so any object may arrive;
`isinstance` then discriminates). -/
inductive PyObj where
  | executorObj (e : PromptExecutorBase)
  | evaluatorObj (e : MetricEvaluatorBase)
  | configObj (c : TestConfig)
  | valueObj (v : Value)

/-- Model of `isinstance(x, PromptExecutorBase)`. -/
def PyObj.isPromptExecutorBase : PyObj → Bool
  | .executorObj _ => true
  | _ => false

/-- Model of `isinstance(x, MetricEvaluatorBase)`. -/
def PyObj.isMetricEvaluatorBase : PyObj → Bool
  | .evaluatorObj _ => true
  | _ => false

/-- Model of `isinstance(x, TestConfig)`. -/
def PyObj.isTestConfig : PyObj → Bool
  | .configObj _ => true
  | _ => false

/-- Model of `core/test_runner.py` `TestRunner`: the three components bound at
construction. -/
structure TestRunner where
  executor : PromptExecutorBase
  evaluator : MetricEvaluatorBase
  config : TestConfig

/-- Model of `TestRunner.__init__` + `_validate_components`: store the three
arguments, then check them in order (executor, evaluator, config),
raising `ValueError` at the first check that fails. -/
def TestRunner.init (executor evaluator config : PyObj) : Except Err TestRunner :=
  match executor with
  | .executorObj e =>
      match evaluator with
      | .evaluatorObj ev =>
          match config with
          | .configObj c => Except.ok ⟨e, ev, c⟩
          | _ => Except.error (.valueError "Config must be an instance of TestConfig")
      | _ => Except.error (.valueError "Evaluator must be an instance of MetricEvaluatorBase")
  | _ => Except.error (.valueError "Executor must be an instance of PromptExecutorBase")

/-- Model of `TestRunner._merge_configs`: `if not override_config: return
base_config` (a `TestConfig` dataclass instance is always truthy, so
only `None` takes that branch); otherwise build a new `TestConfig` from
the two `\x7b**base, **override\x7d` dict merges. -/
def TestRunner.merge_configs (base_config : TestConfig) (override_config : Option TestConfig) :
    TestConfig :=
  match override_config with
  | Option.none => base_config
  | some o =>
      { executor_config := Dict.union base_config.executor_config o.executor_config
        metric_config := Dict.union base_config.metric_config o.metric_config }

/-- Model of `TestRunner._get_metadata`, with `datetime.now().isoformat()`
supplied as the explicit argument `now`. -/
def TestRunner.get_metadata (self : TestRunner) (now : String) : Dict :=
  [("executor_type", Value.str self.executor.className),
   ("evaluator_type", Value.str self.evaluator.className),
   ("timestamp", Value.str now)]

/-- The Python expression `evaluation_params or \x7b\x7d` in `run`: `None`
and the empty dict are falsy, any non-empty dict is truthy. -/
def orEmptyDict (evaluation_params : Option Dict) : Dict :=
  match evaluation_params with
  | Option.none => []
  | some d => if d.isEmpty then [] else d

/-- Model of `TestRunner.run`: merge configs, call the executor, call the
evaluator, package the result.  The two `datetime.now()` readings are
supplied as the explicit arguments `now1` (metadata) and `now2`
(completion timestamp).  An exception from the executor or the evaluator
propagates unmodified (the `error` branches). -/
def TestRunner.run (self : TestRunner) (input_data : Value)
    (evaluation_params : Option Dict) (override_config : Option TestConfig)
    (now1 now2 : String) : Except Err TestResult :=
  let effective_config := TestRunner.merge_configs self.config override_config
  match self.executor.execute input_data effective_config.executor_config with
  | Except.error e => Except.error e
  | Except.ok base_output =>
      match self.evaluator.evaluate self.executor input_data base_output
          effective_config.executor_config effective_config.metric_config
          (orEmptyDict evaluation_params) with
      | Except.error e => Except.error e
      | Except.ok metric_result =>
          Except.ok
            { metric_output := metric_result
              executor_output := base_output
              configs_used := effective_config
              metadata := self.get_metadata now1
              timestamp := now2 }

/-! ### Heap-level model of the merge step

To state the frame property (the merge never mutates the operand dicts)
we re-express `_merge_configs` one level lower, with dict identity made
explicit: a heap maps addresses to dict contents, a `TestConfig` holds
the addresses of its two dicts, and `\x7b**a, **b\x7d` reads both operands and
allocates a fresh dict for the result. -/

/-- The store of dict objects; the address of a dict is its index. -/
abbrev Heap := List Dict

/-- Read the dict at address `r`. -/
def Heap.read (h : Heap) (r : Nat) : Dict := h.getD r []

/-- Allocate a new dict, returning the extended heap and the fresh
address. -/
def Heap.alloc (h : Heap) (d : Dict) : Heap × Nat := (h ++ [d], h.length)

/-- A `TestConfig` at heap level: addresses of its two dicts. -/
structure TestConfigRef where
  executor_config : Nat
  metric_config : Nat

/-- Model of `TestRunner._merge_configs` at heap level: with an override present,
evaluate `\x7b**base.executor_config, **override.executor_config\x7d` (reads
both dicts, allocates the merged one), then the same for
`metric_config`, then build the new `TestConfig` from the two fresh
addresses; with `override_config = None`, return `base_config` itself
and leave the heap untouched. -/
def TestRunner.merge_configs_heap (h : Heap) (base_config : TestConfigRef)
    (override_config : Option TestConfigRef) : Heap × TestConfigRef :=
  match override_config with
  | Option.none => (h, base_config)
  | some o =>
      let merged_executor_config :=
        Dict.union (h.read base_config.executor_config) (h.read o.executor_config)
      let merged_metric_config :=
        Dict.union (h.read base_config.metric_config) (h.read o.metric_config)
      let (h1, r1) := h.alloc merged_executor_config
      let (h2, r2) := h1.alloc merged_metric_config
      (h2, ⟨r1, r2⟩)

/-! ### Concrete instances used to exercise the theorems -/

/-- A concrete executor subclass instance: echoes its input back. -/
def echoExecutor : PromptExecutorBase where
  config_schema := Value.dict []
  execute := fun input_data _ => Except.ok input_data
  className := "EchoExecutor"

/-- A concrete evaluator subclass instance: always passes with score 1,
and records the `evaluation_params` it received in `details`. -/
def passEvaluator : MetricEvaluatorBase where
  config := Value.dict []
  evaluate := fun _ _ _ _ _ evaluation_params =>
    Except.ok
      { score := 1
        status := MetricStatus.PASSED
        visualization := Value.dict evaluation_params
        details := evaluation_params
        threshold := [] }
  className := "PassEvaluator"

/-- A concrete base config. -/
def base0 : TestConfig where
  executor_config := [("model", Value.str "a"), ("x", Value.int 1)]
  metric_config := [("m", Value.int 0)]

/-- A concrete override config colliding with `base0` on `x` and `m`. -/
def ov0 : TestConfig where
  executor_config := [("temperature", Value.float (1 / 2)), ("x", Value.int 2)]
  metric_config := [("m", Value.int 5)]

/-- A concrete runner binding the two doubles and `base0`. -/
def sampleRunner : TestRunner where
  executor := echoExecutor
  evaluator := passEvaluator
  config := base0

/-- What `sampleRunner.run (str "hello") None None "T1" "T2"` returns. -/
def sampleResult : TestResult where
  metric_output :=
    { score := 1, status := MetricStatus.PASSED, visualization := Value.dict []
      details := [], threshold := [] }
  executor_output := Value.str "hello"
  configs_used := base0
  metadata := [("executor_type", Value.str "EchoExecutor"),
               ("evaluator_type", Value.str "PassEvaluator"),
               ("timestamp", Value.str "T1")]
  timestamp := "T2"

/-- What `sampleRunner.run (str "w3") None None "A" "B"` returns. -/
def sampleResult3 : TestResult where
  metric_output :=
    { score := 1, status := MetricStatus.PASSED, visualization := Value.dict []
      details := [], threshold := [] }
  executor_output := Value.str "w3"
  configs_used := base0
  metadata := [("executor_type", Value.str "EchoExecutor"),
               ("evaluator_type", Value.str "PassEvaluator"),
               ("timestamp", Value.str "A")]
  timestamp := "B"

/-- Non-empty evaluation params used to exercise `run`. -/
def params10 : Dict := [("a", Value.int 1)]

/-- What `sampleRunner.run (str "p") (some params10) None "M" "N"` returns. -/
def sampleResult10 : TestResult where
  metric_output :=
    { score := 1, status := MetricStatus.PASSED, visualization := Value.dict params10
      details := params10, threshold := [] }
  executor_output := Value.str "p"
  configs_used := base0
  metadata := [("executor_type", Value.str "EchoExecutor"),
               ("evaluator_type", Value.str "PassEvaluator"),
               ("timestamp", Value.str "M")]
  timestamp := "N"

/-- A concrete config / schema pair satisfying the schema (with an extra
key not mentioned by the schema). -/
def cfg5 : Dict :=
  [("model", Value.str "gpt"), ("n", Value.int 3), ("extra", Value.bool true)]

/-- The schema for `cfg5`. -/
def schema5 : List (String × PyType) := [("model", PyType.strT), ("n", PyType.intT)]

/-- The executor instance produced by `PromptExecutorBase.init` on an
empty dict schema. -/
def baseExecutorInstance : PromptExecutorBase where
  config_schema := Value.dict []
  execute := PromptExecutorBase.executeBase
  className := "PromptExecutorBase"

/-- The evaluator instance produced by `MetricEvaluatorBase.init` on an
empty dict config. -/
def baseEvaluatorInstance : MetricEvaluatorBase where
  config := Value.dict []
  evaluate := MetricEvaluatorBase.evaluateBase
  className := "MetricEvaluatorBase"

/-- A concrete heap of four dict objects. -/
def heap0 : Heap :=
  [[("model", Value.str "a")], [("temperature", Value.float 1)],
   [("m", Value.int 0)], [("m", Value.int 5)]]

/-- Heap-level base config: dicts 0 and 2 of `heap0`. -/
def baseRef : TestConfigRef where
  executor_config := 0
  metric_config := 2

/-- Heap-level override config: dicts 1 and 3 of `heap0`. -/
def ovRef : TestConfigRef where
  executor_config := 1
  metric_config := 3

/-! ## Lemmas about the dict operations -/

theorem Dict.lookup_insert (d : Dict) (k : String) (v : Value) (q : String) :
    Dict.lookup (Dict.insert d k v) q = if q = k then some v else Dict.lookup d q := by
  induction d with
  | nil =>
      by_cases h : q = k
      · subst h; simp [Dict.insert, Dict.lookup]
      · simp [Dict.insert, Dict.lookup, h, Ne.symm h]
  | cons hd tl ih =>
      obtain ⟨a, b⟩ := hd
      by_cases hak : a = k
      · subst hak
        by_cases hq : q = a
        · subst hq; simp [Dict.insert, Dict.lookup]
        · simp [Dict.insert, Dict.lookup, hq, Ne.symm hq]
      · by_cases hq : a = q
        · subst hq
          simp [Dict.insert, Dict.lookup, hak]
        · simp [Dict.insert, Dict.lookup, hak, hq, ih]

theorem Dict.lookup_eq_none_of_not_mem (d : Dict) (k : String)
    (h : k ∉ d.map Prod.fst) : Dict.lookup d k = Option.none := by
  induction d with
  | nil => rfl
  | cons hd tl ih =>
      obtain ⟨a, b⟩ := hd
      simp only [List.map_cons, List.mem_cons] at h
      push_neg at h
      simp [Dict.lookup, Ne.symm h.1, ih h.2]

theorem Dict.lookup_union (a b : Dict) (hb : (b.map Prod.fst).Nodup) (k : String) :
    Dict.lookup (Dict.union a b) k = Option.or (Dict.lookup b k) (Dict.lookup a k) := by
  induction b generalizing a with
  | nil => simp [Dict.union, Dict.lookup, Option.or]
  | cons hd tl ih =>
      obtain ⟨kb, vb⟩ := hd
      simp only [List.map_cons, List.nodup_cons] at hb
      have hstep : Dict.union a ((kb, vb) :: tl) = Dict.union (Dict.insert a kb vb) tl := rfl
      rw [hstep, ih _ hb.2, Dict.lookup_insert]
      by_cases hk : k = kb
      · subst hk
        rw [Dict.lookup_eq_none_of_not_mem tl k hb.1]
        simp [Dict.lookup, Option.or]
      · simp [Dict.lookup, hk, Ne.symm hk]

/-! ## Inversion of a successful `run` -/

theorem TestRunner.run_ok_inv (self : TestRunner) (input_data : Value)
    (evaluation_params : Option Dict) (override_config : Option TestConfig)
    (now1 now2 : String) (r : TestResult)
    (h : self.run input_data evaluation_params override_config now1 now2 = Except.ok r) :
    self.executor.execute input_data
        (TestRunner.merge_configs self.config override_config).executor_config
      = Except.ok r.executor_output ∧
    self.evaluator.evaluate self.executor input_data r.executor_output
        (TestRunner.merge_configs self.config override_config).executor_config
        (TestRunner.merge_configs self.config override_config).metric_config
        (orEmptyDict evaluation_params)
      = Except.ok r.metric_output ∧
    r.configs_used = TestRunner.merge_configs self.config override_config ∧
    r.metadata = self.get_metadata now1 ∧
    r.timestamp = now2 := by
  unfold TestRunner.run at h
  dsimp only [] at h
  cases hex : self.executor.execute input_data
      (TestRunner.merge_configs self.config override_config).executor_config with
  | error e => rw [hex] at h; exact absurd h (by simp)
  | ok base_output =>
      rw [hex] at h
      dsimp only [] at h
      cases hev : self.evaluator.evaluate self.executor input_data base_output
          (TestRunner.merge_configs self.config override_config).executor_config
          (TestRunner.merge_configs self.config override_config).metric_config
          (orEmptyDict evaluation_params) with
      | error e => rw [hev] at h; exact absurd h (by simp)
      | ok metric_result =>
          rw [hev] at h
          dsimp only [] at h
          simp only [Except.ok.injEq] at h
          subst h
          exact ⟨rfl, hev, rfl, rfl, rfl⟩

/-! ## The claims -/

/-- Claim C1: merging a base `TestConfig` with a non-`None` override via
`TestRunner._merge_configs` yields an effective config whose
`executor_config` maps every key to the value from the override when
the override binds the key (wholesale, also when that value is a nested
dict) and to the value from the base otherwise, so its key set is exactly the
union of the two key sets; the same holds independently for
`metric_config`; and `run` with an override supplied uses exactly this
merged config as `configs_used`. -/
theorem claim_C1_merge_override (base override : TestConfig)
    (h1 : (override.executor_config.map Prod.fst).Nodup)
    (h2 : (override.metric_config.map Prod.fst).Nodup) :
    (∀ k, Dict.lookup (TestRunner.merge_configs base (some override)).executor_config k
        = Option.or (Dict.lookup override.executor_config k)
            (Dict.lookup base.executor_config k)) ∧
    (∀ k, (Dict.lookup (TestRunner.merge_configs base (some override)).executor_config k).isSome
        = ((Dict.lookup base.executor_config k).isSome
            || (Dict.lookup override.executor_config k).isSome)) ∧
    (∀ k d, Dict.lookup override.executor_config k = some (Value.dict d) →
        Dict.lookup (TestRunner.merge_configs base (some override)).executor_config k
          = some (Value.dict d)) ∧
    (∀ k, Dict.lookup (TestRunner.merge_configs base (some override)).metric_config k
        = Option.or (Dict.lookup override.metric_config k)
            (Dict.lookup base.metric_config k)) ∧
    (∀ k, (Dict.lookup (TestRunner.merge_configs base (some override)).metric_config k).isSome
        = ((Dict.lookup base.metric_config k).isSome
            || (Dict.lookup override.metric_config k).isSome)) ∧
    (∀ (self : TestRunner) (input_data : Value) (evaluation_params : Option Dict)
        (now1 now2 : String) (r : TestResult),
        self.run input_data evaluation_params (some override) now1 now2 = Except.ok r →
        r.configs_used = TestRunner.merge_configs self.config (some override)) := by
  have hme : (TestRunner.merge_configs base (some override)).executor_config
      = Dict.union base.executor_config override.executor_config := rfl
  have hmm : (TestRunner.merge_configs base (some override)).metric_config
      = Dict.union base.metric_config override.metric_config := rfl
  refine ⟨?_, ?_, ?_, ?_, ?_, ?_⟩
  · intro k; rw [hme, Dict.lookup_union _ _ h1]
  · intro k
    rw [hme, Dict.lookup_union _ _ h1]
    cases ho : Dict.lookup override.executor_config k <;> simp [Option.or, ho]
  · intro k d hk
    rw [hme, Dict.lookup_union _ _ h1, hk]
    rfl
  · intro k; rw [hmm, Dict.lookup_union _ _ h2]
  · intro k
    rw [hmm, Dict.lookup_union _ _ h2]
    cases ho : Dict.lookup override.metric_config k <;> simp [Option.or, ho]
  · intro self input_data evaluation_params now1 now2 r hr
    exact (TestRunner.run_ok_inv self input_data evaluation_params (some override)
      now1 now2 r hr).2.2.1

/-- Witness for C1: concrete configs with a collision on key `x`. -/
theorem claim_C1_witness :
    ((ov0.executor_config.map Prod.fst).Nodup ∧ (ov0.metric_config.map Prod.fst).Nodup) ∧
    Dict.lookup (TestRunner.merge_configs base0 (some ov0)).executor_config "x"
      = Option.or (Dict.lookup ov0.executor_config "x") (Dict.lookup base0.executor_config "x") :=
  ⟨⟨by decide, by decide⟩,
   (claim_C1_merge_override base0 ov0 (by decide) (by decide)).1 "x"⟩

/-- Claim C2: `run` with `override_config = None` reports the base
`TestConfig` bound at construction, unchanged, as `configs_used`. -/
theorem claim_C2_run_no_override (self : TestRunner) (input_data : Value)
    (evaluation_params : Option Dict) (now1 now2 : String) (r : TestResult)
    (h : self.run input_data evaluation_params Option.none now1 now2 = Except.ok r) :
    r.configs_used = self.config :=
  (TestRunner.run_ok_inv self input_data evaluation_params Option.none now1 now2 r h).2.2.1

/-- Witness for C2 on a concrete run. -/
theorem claim_C2_witness :
    sampleRunner.run (Value.str "hello") Option.none Option.none "T1" "T2"
      = Except.ok sampleResult ∧
    sampleResult.configs_used = sampleRunner.config :=
  ⟨rfl, claim_C2_run_no_override sampleRunner (Value.str "hello") Option.none "T1" "T2"
    sampleResult rfl⟩

/-- Claim C3: a `TestResult` returned by `run` carries, as
`executor_output`, exactly the value that the `execute` call on the
bound executor returned, and the evaluator was called with that same value as
`base_output`. -/
theorem claim_C3_executor_output (self : TestRunner) (input_data : Value)
    (evaluation_params : Option Dict) (override_config : Option TestConfig)
    (now1 now2 : String) (r : TestResult)
    (h : self.run input_data evaluation_params override_config now1 now2 = Except.ok r) :
    self.executor.execute input_data
        (TestRunner.merge_configs self.config override_config).executor_config
      = Except.ok r.executor_output ∧
    self.evaluator.evaluate self.executor input_data r.executor_output
        (TestRunner.merge_configs self.config override_config).executor_config
        (TestRunner.merge_configs self.config override_config).metric_config
        (orEmptyDict evaluation_params)
      = Except.ok r.metric_output := by
  have h2 := TestRunner.run_ok_inv self input_data evaluation_params override_config
    now1 now2 r h
  exact ⟨h2.1, h2.2.1⟩

/-- Witness for C3 on a concrete run. -/
theorem claim_C3_witness :
    sampleRunner.run (Value.str "w3") Option.none Option.none "A" "B"
      = Except.ok sampleResult3 ∧
    sampleRunner.executor.execute (Value.str "w3")
        (TestRunner.merge_configs sampleRunner.config Option.none).executor_config
      = Except.ok sampleResult3.executor_output :=
  ⟨rfl, (claim_C3_executor_output sampleRunner (Value.str "w3") Option.none Option.none
    "A" "B" sampleResult3 rfl).1⟩

/-- Claim C10: `run` passes `\x7b\x7d` to the evaluator when
`evaluation_params` is `None`, and passes a non-empty mapping through
unchanged; the evaluator never receives `None`. -/
theorem claim_C10_evaluation_params (self : TestRunner) (input_data : Value)
    (override_config : Option TestConfig) (now1 now2 : String) :
    orEmptyDict Option.none = ([] : Dict) ∧
    (∀ p : Dict, p ≠ [] → orEmptyDict (some p) = p) ∧
    (∀ r : TestResult,
      self.run input_data Option.none override_config now1 now2 = Except.ok r →
      self.evaluator.evaluate self.executor input_data r.executor_output
          (TestRunner.merge_configs self.config override_config).executor_config
          (TestRunner.merge_configs self.config override_config).metric_config []
        = Except.ok r.metric_output) ∧
    (∀ (p : Dict) (r : TestResult), p ≠ [] →
      self.run input_data (some p) override_config now1 now2 = Except.ok r →
      self.evaluator.evaluate self.executor input_data r.executor_output
          (TestRunner.merge_configs self.config override_config).executor_config
          (TestRunner.merge_configs self.config override_config).metric_config p
        = Except.ok r.metric_output) := by
  have horEmpty : ∀ p : Dict, p ≠ [] → orEmptyDict (some p) = p := by
    intro p hp
    cases p with
    | nil => exact absurd rfl hp
    | cons a t => rfl
  refine ⟨rfl, horEmpty, ?_, ?_⟩
  · intro r hr
    exact (TestRunner.run_ok_inv self input_data Option.none override_config
      now1 now2 r hr).2.1
  · intro p r hp hr
    have h := (TestRunner.run_ok_inv self input_data (some p) override_config
      now1 now2 r hr).2.1
    rwa [horEmpty p hp] at h

/-- Witness for C10 on a concrete run with non-empty params. -/
theorem claim_C10_witness :
    params10 ≠ ([] : Dict) ∧
    sampleRunner.run (Value.str "p") (some params10) Option.none "M" "N"
      = Except.ok sampleResult10 ∧
    sampleRunner.evaluator.evaluate sampleRunner.executor (Value.str "p")
        sampleResult10.executor_output
        (TestRunner.merge_configs sampleRunner.config Option.none).executor_config
        (TestRunner.merge_configs sampleRunner.config Option.none).metric_config params10
      = Except.ok sampleResult10.metric_output :=
  ⟨by simp [params10], rfl,
   (claim_C10_evaluation_params sampleRunner (Value.str "p") Option.none "M" "N").2.2.2
     params10 sampleResult10 (by simp [params10]) rfl⟩

/-- Counterexample to claim C4 as stated: `MetricOutput` is a plain
dataclass, so a record with score 2 (outside [0,1]) is constructible. -/
theorem claim_C4_counterexample :
    ¬ (0 ≤ (MetricOutput.mk 2 MetricStatus.PASSED Value.none [] []).score ∧
       (MetricOutput.mk 2 MetricStatus.PASSED Value.none [] []).score ≤ 1) := by
  intro hc
  have h2 : (2 : Rat) ≤ 1 := hc.2
  norm_num at h2

/-- Claim C4 (amended): every `MetricOutput` has a status drawn from the
fixed enumeration PASSED/WARNING/FAILED/INCONCLUSIVE, but the score
field is unconstrained by construction: any rational is accepted
unchanged. -/
theorem claim_C4_status_enum :
    (∀ m : MetricOutput,
      m.status = MetricStatus.PASSED ∨ m.status = MetricStatus.WARNING ∨
      m.status = MetricStatus.FAILED ∨ m.status = MetricStatus.INCONCLUSIVE) ∧
    (∀ q : Rat, (MetricOutput.mk q MetricStatus.PASSED Value.none [] []).score = q) := by
  constructor
  · intro m
    obtain ⟨s, st, vis, det, th⟩ := m
    cases st <;> simp
  · intro q; rfl

/-- Claim C6: constructing a `PromptExecutorBase` (resp. a
`MetricEvaluatorBase`) succeeds exactly when the `config_schema` (resp.
`config`) argument is a mapping, binding it unchanged; a non-mapping
argument raises a `ValueError`. -/
theorem claim_C6_base_init (v : Value) :
    (isinstance v PyType.dictT = true →
      PromptExecutorBase.init v
          = Except.ok ⟨v, PromptExecutorBase.executeBase, "PromptExecutorBase"⟩ ∧
      MetricEvaluatorBase.init v
          = Except.ok ⟨v, MetricEvaluatorBase.evaluateBase, "MetricEvaluatorBase"⟩) ∧
    (isinstance v PyType.dictT = false →
      PromptExecutorBase.init v
          = Except.error (Err.valueError "Config schema must be a dictionary") ∧
      MetricEvaluatorBase.init v
          = Except.error (Err.valueError "Config must be a dictionary")) := by
  constructor
  · intro hd
    exact ⟨by simp [PromptExecutorBase.init, hd], by simp [MetricEvaluatorBase.init, hd]⟩
  · intro hd
    exact ⟨by simp [PromptExecutorBase.init, hd], by simp [MetricEvaluatorBase.init, hd]⟩

/-- Witness for C6: a dict argument succeeds, an int argument fails. -/
theorem claim_C6_witness :
    (isinstance (Value.dict []) PyType.dictT = true ∧
      PromptExecutorBase.init (Value.dict [])
        = Except.ok ⟨Value.dict [], PromptExecutorBase.executeBase, "PromptExecutorBase"⟩) ∧
    (isinstance (Value.int 3) PyType.dictT = false ∧
      PromptExecutorBase.init (Value.int 3)
        = Except.error (Err.valueError "Config schema must be a dictionary")) :=
  ⟨⟨rfl, ((claim_C6_base_init (Value.dict [])).1 rfl).1⟩,
   ⟨rfl, ((claim_C6_base_init (Value.int 3)).2 rfl).1⟩⟩

/-- Claim C7: `TestRunner` construction succeeds exactly when the
executor is a `PromptExecutorBase` instance, the evaluator a
`MetricEvaluatorBase` instance and the config a `TestConfig`, binding
exactly those three values; otherwise it raises a `ValueError`. -/
theorem claim_C7_runner_init :
    (∀ (e : PromptExecutorBase) (ev : MetricEvaluatorBase) (c : TestConfig),
      TestRunner.init (PyObj.executorObj e) (PyObj.evaluatorObj ev) (PyObj.configObj c)
        = Except.ok ⟨e, ev, c⟩) ∧
    (∀ a b c : PyObj,
      (a.isPromptExecutorBase = false ∨ b.isMetricEvaluatorBase = false ∨
        c.isTestConfig = false) →
      ∃ msg, TestRunner.init a b c = Except.error (Err.valueError msg)) ∧
    (∀ (a b c : PyObj) (r : TestRunner), TestRunner.init a b c = Except.ok r →
      a = PyObj.executorObj r.executor ∧ b = PyObj.evaluatorObj r.evaluator ∧
      c = PyObj.configObj r.config) := by
  refine ⟨fun e ev c => rfl, ?_, ?_⟩
  · intro a b c hbad
    cases a <;> cases b <;> cases c <;>
      first
        | exact ⟨_, rfl⟩
        | simp [PyObj.isPromptExecutorBase, PyObj.isMetricEvaluatorBase,
            PyObj.isTestConfig] at hbad
  · intro a b c r hr
    cases a <;> cases b <;> cases c <;> simp only [TestRunner.init] at hr <;>
      first
        | exact Except.noConfusion hr
        | (rw [Except.ok.injEq] at hr; subst hr; exact ⟨rfl, rfl, rfl⟩)

/-- Witness for C7: a well-typed triple succeeds, a mistyped executor
argument fails. -/
theorem claim_C7_witness :
    TestRunner.init (PyObj.executorObj echoExecutor) (PyObj.evaluatorObj passEvaluator)
        (PyObj.configObj base0) = Except.ok ⟨echoExecutor, passEvaluator, base0⟩ ∧
    ((PyObj.valueObj (Value.int 1)).isPromptExecutorBase = false ∨
      (PyObj.evaluatorObj passEvaluator).isMetricEvaluatorBase = false ∨
      (PyObj.configObj base0).isTestConfig = false) ∧
    (∃ msg, TestRunner.init (PyObj.valueObj (Value.int 1)) (PyObj.evaluatorObj passEvaluator)
        (PyObj.configObj base0) = Except.error (Err.valueError msg)) :=
  ⟨claim_C7_runner_init.1 echoExecutor passEvaluator base0,
   Or.inl rfl,
   claim_C7_runner_init.2.1 _ _ _ (Or.inl rfl)⟩

/-- Claim C8: the unoverridden base `execute` and `evaluate` methods
raise `NotImplementedError` on every input (and do nothing else, being
pure); instances produced by the base constructors dispatch to exactly
these methods. -/
theorem claim_C8_not_implemented :
    (∀ (input_data : Value) (config : Dict),
      PromptExecutorBase.executeBase input_data config
        = Except.error Err.notImplementedError) ∧
    (∀ (executor : PromptExecutorBase) (input_data base_output : Value)
        (executor_config test_config evaluation_params : Dict),
      MetricEvaluatorBase.evaluateBase executor input_data base_output executor_config
          test_config evaluation_params = Except.error Err.notImplementedError) ∧
    (∀ (v : Value) (ex : PromptExecutorBase), PromptExecutorBase.init v = Except.ok ex →
      ∀ (input_data : Value) (config : Dict),
        ex.execute input_data config = Except.error Err.notImplementedError) ∧
    (∀ (v : Value) (ev : MetricEvaluatorBase), MetricEvaluatorBase.init v = Except.ok ev →
      ∀ (executor : PromptExecutorBase) (input_data base_output : Value)
        (executor_config test_config evaluation_params : Dict),
        ev.evaluate executor input_data base_output executor_config test_config
          evaluation_params = Except.error Err.notImplementedError) := by
  refine ⟨fun _ _ => rfl, fun _ _ _ _ _ _ => rfl, ?_, ?_⟩
  · intro v ex h input_data config
    unfold PromptExecutorBase.init at h
    by_cases hd : isinstance v PyType.dictT = true
    · rw [if_pos hd, Except.ok.injEq] at h
      subst h
      rfl
    · rw [if_neg hd] at h
      exact absurd h (by simp)
  · intro v ev h executor input_data base_output executor_config test_config evaluation_params
    unfold MetricEvaluatorBase.init at h
    by_cases hd : isinstance v PyType.dictT = true
    · rw [if_pos hd, Except.ok.injEq] at h
      subst h
      rfl
    · rw [if_neg hd] at h
      exact absurd h (by simp)

/-- Witness for C8 on concrete base instances. -/
theorem claim_C8_witness :
    PromptExecutorBase.executeBase Value.none [] = Except.error Err.notImplementedError ∧
    PromptExecutorBase.init (Value.dict []) = Except.ok baseExecutorInstance ∧
    baseExecutorInstance.execute Value.none [] = Except.error Err.notImplementedError ∧
    MetricEvaluatorBase.init (Value.dict []) = Except.ok baseEvaluatorInstance ∧
    baseEvaluatorInstance.evaluate baseExecutorInstance Value.none Value.none [] [] []
      = Except.error Err.notImplementedError :=
  ⟨claim_C8_not_implemented.1 Value.none [], rfl,
   claim_C8_not_implemented.2.2.1 (Value.dict []) baseExecutorInstance rfl Value.none [],
   rfl,
   claim_C8_not_implemented.2.2.2 (Value.dict []) baseEvaluatorInstance rfl
     baseExecutorInstance Value.none Value.none [] [] []⟩

/-- Claim C9: the merge step with an override present allocates fresh
dicts for the new `TestConfig` (two distinct addresses beyond the old
heap) with the merged contents, and every pre-existing dict — in
particular those of the base and of the override — is unchanged afterwards;
with no override the heap is untouched and the base is returned. -/
theorem claim_C9_merge_frame (h : Heap) (base override : TestConfigRef) :
    (∀ r, r < h.length →
      (TestRunner.merge_configs_heap h base (some override)).1.read r = h.read r) ∧
    h.length ≤ (TestRunner.merge_configs_heap h base (some override)).2.executor_config ∧
    h.length ≤ (TestRunner.merge_configs_heap h base (some override)).2.metric_config ∧
    (TestRunner.merge_configs_heap h base (some override)).2.executor_config
      ≠ (TestRunner.merge_configs_heap h base (some override)).2.metric_config ∧
    (TestRunner.merge_configs_heap h base (some override)).1.read
        (TestRunner.merge_configs_heap h base (some override)).2.executor_config
      = Dict.union (h.read base.executor_config) (h.read override.executor_config) ∧
    (TestRunner.merge_configs_heap h base (some override)).1.read
        (TestRunner.merge_configs_heap h base (some override)).2.metric_config
      = Dict.union (h.read base.metric_config) (h.read override.metric_config) ∧
    TestRunner.merge_configs_heap h base Option.none = (h, base) := by
  have hm : TestRunner.merge_configs_heap h base (some override)
      = ((h ++ [Dict.union (h.read base.executor_config) (h.read override.executor_config)])
          ++ [Dict.union (h.read base.metric_config) (h.read override.metric_config)],
         ⟨h.length, h.length + 1⟩) := by
    simp [TestRunner.merge_configs_heap, Heap.alloc]
  rw [hm]
  refine ⟨?_, Nat.le_refl _, Nat.le_succ _,
    show h.length ≠ h.length + 1 by omega, ?_, ?_, rfl⟩
  · intro r hr
    unfold Heap.read
    rw [List.getD_append _ _ _ _ (by simp; omega), List.getD_append _ _ _ _ hr]
  · unfold Heap.read
    rw [List.getD_append _ _ _ _ (by simp),
      List.getD_append_right _ _ _ _ (Nat.le_refl _)]
    simp
  · unfold Heap.read
    rw [List.getD_append_right _ _ _ _ (by simp)]
    simp

/-- Witness for C9 on a concrete heap. -/
theorem claim_C9_witness :
    (0 : Nat) < heap0.length ∧
    (TestRunner.merge_configs_heap heap0 baseRef (some ovRef)).1.read 0 = heap0.read 0 :=
  ⟨by decide, (claim_C9_merge_frame heap0 baseRef ovRef).1 0 (by decide)⟩

/-! ## Lemmas about `validate_config_schema` -/

theorem validate_ok_iff (config : Dict) (schema : List (String × PyType)) :
    validate_config_schema config schema = Except.ok () ↔
      ∀ kt ∈ schema, ∃ v, Dict.lookup config kt.1 = some v ∧ isinstance v kt.2 = true := by
  induction schema with
  | nil => simp [validate_config_schema]
  | cons kt rest ih =>
      obtain ⟨key, t⟩ := kt
      cases hl : Dict.lookup config key with
      | none => simp [validate_config_schema, hl, List.forall_mem_cons]
      | some v =>
          by_cases hv : isinstance v t = true
          · simp [validate_config_schema, hl, hv, List.forall_mem_cons, ih]
          · simp [validate_config_schema, hl, hv, List.forall_mem_cons]

theorem validate_valueError_inv (config : Dict) (schema : List (String × PyType))
    (m : String)
    (h : validate_config_schema config schema = Except.error (Err.valueError m)) :
    ∃ k, m = missingKeyMsg k ∧ k ∈ schema.map Prod.fst ∧
      Dict.lookup config k = Option.none := by
  induction schema with
  | nil => exact absurd h (by simp [validate_config_schema])
  | cons kt rest ih =>
      obtain ⟨key, t⟩ := kt
      cases hl : Dict.lookup config key with
      | none =>
          simp only [validate_config_schema, hl, Except.error.injEq,
            Err.valueError.injEq] at h
          exact ⟨key, h.symm, by simp, hl⟩
      | some v =>
          by_cases hv : isinstance v t = true
          · simp only [validate_config_schema, hl, hv, if_true] at h
            obtain ⟨k, h1, h2, h3⟩ := ih h
            exact ⟨k, h1, by simp [h2], h3⟩
          · simp [validate_config_schema, hl, hv] at h

theorem validate_typeError_inv (config : Dict) (schema : List (String × PyType))
    (m : String)
    (h : validate_config_schema config schema = Except.error (Err.typeError m)) :
    ∃ k t v, (k, t) ∈ schema ∧ Dict.lookup config k = some v ∧
      isinstance v t = false ∧ m = typeMismatchMsg k t v := by
  induction schema with
  | nil => exact absurd h (by simp [validate_config_schema])
  | cons kt rest ih =>
      obtain ⟨key, t⟩ := kt
      cases hl : Dict.lookup config key with
      | none => simp [validate_config_schema, hl] at h
      | some v =>
          by_cases hv : isinstance v t = true
          · simp only [validate_config_schema, hl, hv, if_true] at h
            obtain ⟨k, t', v', h1, h2, h3, h4⟩ := ih h
            exact ⟨k, t', v', by simp [h1], h2, h3, h4⟩
          · have hfalse : isinstance v t = false := by simpa using hv
            have hres : validate_config_schema config ((key, t) :: rest)
                = Except.error (Err.typeError (typeMismatchMsg key t v)) := by
              simp [validate_config_schema, hl, hfalse]
            rw [hres, Except.error.injEq, Err.typeError.injEq] at h
            exact ⟨key, t, v, by simp, hl, hfalse, h.symm⟩

theorem validate_ne_notImplemented (config : Dict) (schema : List (String × PyType)) :
    validate_config_schema config schema ≠ Except.error Err.notImplementedError := by
  induction schema with
  | nil => simp [validate_config_schema]
  | cons kt rest ih =>
      obtain ⟨key, t⟩ := kt
      cases hl : Dict.lookup config key with
      | none => simp [validate_config_schema, hl]
      | some v =>
          by_cases hv : isinstance v t = true
          · simpa [validate_config_schema, hl, hv] using ih
          · simp [validate_config_schema, hl, hv]

theorem validate_congr (config config2 : Dict) (schema : List (String × PyType))
    (hagree : ∀ kt ∈ schema, Dict.lookup config2 kt.1 = Dict.lookup config kt.1) :
    validate_config_schema config2 schema = validate_config_schema config schema := by
  induction schema with
  | nil => rfl
  | cons kt rest ih =>
      obtain ⟨key, t⟩ := kt
      have hkey : Dict.lookup config2 key = Dict.lookup config key :=
        hagree (key, t) (by simp)
      have hrest : ∀ kt ∈ rest, Dict.lookup config2 kt.1 = Dict.lookup config kt.1 :=
        fun kt hkt => hagree kt (List.mem_cons_of_mem _ hkt)
      simp only [validate_config_schema, hkey, ih hrest]

/-- Claim C5: `validate_config_schema` succeeds exactly when every
schema key is present in the config with a value of the declared type;
every `ValueError` it raises is a missing-key error for a schema key
absent from the config, every `TypeError` a type-mismatch error for a
schema key whose value fails `isinstance`; the outcome depends only on
the values of the config at the schema keys (extra keys are ignored); from
an otherwise conforming config, a single absent key yields exactly its
missing-key `ValueError`, and a single ill-typed key yields a
`TypeError`. -/
theorem claim_C5_validate_config_schema (config : Dict)
    (schema : List (String × PyType)) :
    (validate_config_schema config schema = Except.ok () ↔
      ∀ kt ∈ schema, ∃ v, Dict.lookup config kt.1 = some v ∧ isinstance v kt.2 = true) ∧
    (∀ m, validate_config_schema config schema = Except.error (Err.valueError m) →
      ∃ k, m = missingKeyMsg k ∧ k ∈ schema.map Prod.fst ∧
        Dict.lookup config k = Option.none) ∧
    (∀ m, validate_config_schema config schema = Except.error (Err.typeError m) →
      ∃ k t v, (k, t) ∈ schema ∧ Dict.lookup config k = some v ∧
        isinstance v t = false ∧ m = typeMismatchMsg k t v) ∧
    (∀ config2 : Dict,
      (∀ kt ∈ schema, Dict.lookup config2 kt.1 = Dict.lookup config kt.1) →
      validate_config_schema config2 schema = validate_config_schema config schema) ∧
    (∀ k, k ∈ schema.map Prod.fst → Dict.lookup config k = Option.none →
      (∀ kt ∈ schema, kt.1 ≠ k →
        ∃ v, Dict.lookup config kt.1 = some v ∧ isinstance v kt.2 = true) →
      validate_config_schema config schema
        = Except.error (Err.valueError (missingKeyMsg k))) ∧
    (∀ k t v, (k, t) ∈ schema → Dict.lookup config k = some v → isinstance v t = false →
      (∀ kt ∈ schema, kt.1 ≠ k →
        ∃ w, Dict.lookup config kt.1 = some w ∧ isinstance w kt.2 = true) →
      ∃ m, validate_config_schema config schema = Except.error (Err.typeError m)) := by
  refine ⟨validate_ok_iff config schema,
    fun m => validate_valueError_inv config schema m,
    fun m => validate_typeError_inv config schema m,
    fun config2 => validate_congr config config2 schema, ?_, ?_⟩
  · intro k hk hnone hothers
    have hnotok : validate_config_schema config schema ≠ Except.ok () := by
      intro hok
      obtain ⟨⟨k2, t2⟩, hmem, hfst⟩ := List.mem_map.mp hk
      obtain ⟨v, hv, _⟩ := (validate_ok_iff config schema).mp hok (k2, t2) hmem
      rw [show k2 = k from hfst, hnone] at hv
      exact Option.noConfusion hv
    cases hval : validate_config_schema config schema with
    | ok u => cases u; exact absurd hval hnotok
    | error e =>
        cases e with
        | notImplementedError =>
            exact absurd hval (validate_ne_notImplemented config schema)
        | valueError m =>
            obtain ⟨k2, h1, h2, h3⟩ := validate_valueError_inv config schema m hval
            by_cases hkk : k2 = k
            · rw [h1, hkk]
            · obtain ⟨⟨k3, t3⟩, hmem3, hfst3⟩ := List.mem_map.mp h2
              have hne : (k3, t3).1 ≠ k := by rw [hfst3]; exact hkk
              obtain ⟨v, hv, _⟩ := hothers (k3, t3) hmem3 hne
              rw [show k3 = k2 from hfst3, h3] at hv
              exact Option.noConfusion hv
        | typeError m =>
            obtain ⟨k2, t2, v2, hmem2, hlk2, hbad2, _⟩ :=
              validate_typeError_inv config schema m hval
            have hne : (k2, t2).1 ≠ k := by
              intro he
              rw [show k2 = k from he, hnone] at hlk2
              exact Option.noConfusion hlk2
            obtain ⟨w, hw, hwt⟩ := hothers (k2, t2) hmem2 hne
            rw [hlk2, Option.some.injEq] at hw
            subst hw
            have hgood : isinstance v2 t2 = true := hwt
            rw [hgood] at hbad2
            exact Bool.noConfusion hbad2
  · intro k t v hmem hlk hbad hothers
    have hnotok : validate_config_schema config schema ≠ Except.ok () := by
      intro hok
      obtain ⟨w, hw, hwt⟩ := (validate_ok_iff config schema).mp hok (k, t) hmem
      rw [hlk, Option.some.injEq] at hw
      subst hw
      have hgood : isinstance v t = true := hwt
      rw [hgood] at hbad
      exact Bool.noConfusion hbad
    cases hval : validate_config_schema config schema with
    | ok u => cases u; exact absurd hval hnotok
    | error e =>
        cases e with
        | notImplementedError =>
            exact absurd hval (validate_ne_notImplemented config schema)
        | typeError m => exact ⟨m, rfl⟩
        | valueError m =>
            obtain ⟨k2, h1, h2, h3⟩ := validate_valueError_inv config schema m hval
            obtain ⟨⟨k3, t3⟩, hmem3, hfst3⟩ := List.mem_map.mp h2
            have hne : (k3, t3).1 ≠ k := by
              intro he
              have hk2k : k2 = k := by rw [← hfst3]; exact he
              rw [hk2k, hlk] at h3
              exact Option.noConfusion h3
            obtain ⟨w, hw, _⟩ := hothers (k3, t3) hmem3 hne
            rw [show k3 = k2 from hfst3, h3] at hw
            exact Option.noConfusion hw

/-- Witness for C5: a conforming config with an extra key validates. -/
theorem claim_C5_witness :
    validate_config_schema cfg5 schema5 = Except.ok () :=
  (claim_C5_validate_config_schema cfg5 schema5).1.mpr (by
    intro kt hkt
    simp only [schema5, List.mem_cons, List.not_mem_nil, or_false] at hkt
    rcases hkt with h | h
    · exact ⟨Value.str "gpt", by rw [h]; rfl, by rw [h]; rfl⟩
    · exact ⟨Value.int 3, by rw [h]; rfl, by rw [h]; rfl⟩)

end AlloLLMEval
